import Mathlib

/-!
Shallow embedding of the schoolsout-app-suggestions activity-search service
(Go, Cloud Functions): the request-admission pipeline (rate limiter, App
Check gate, request validation) from cmd/main.go and the two-stage Gemini
client (transport envelope handling, prompt construction, three-tier JSON
extraction) from gemini_client.go, together with theorems checking the
specification's claims against these definitions.

Modelling conventions: machine time (`time.Time`) is a `Nat` of abstract
ticks; Go's `json.Unmarshal` into `[]Activity` and into `GeminiResponse` is
a parameter (a function into `Option`), since its implementation lives in
the Go standard library, while every index computation, dispatch decision
and state update of the repository's own code is embedded concretely;
fallible Go code returns `Except`; the global rate-limit map is passed as
explicit state.
-/

namespace Schoolsout

/-- AgeRange: the age filter of a search request (cmd/main.go). -/
structure AgeRange where
  min : Int
  max : Int
deriving DecidableEq, Repr

/-- DateRange: the date filter of a search request (cmd/main.go);
dates are ISO-8601 strings. -/
structure DateRange where
  startDate : String
  endDate : String
deriving DecidableEq, Repr

/-- SearchRequest: the request body of the search endpoint (cmd/main.go). -/
structure SearchRequest where
  query : String
  location : String
  ageRange : Option AgeRange
  dateRange : Option DateRange
deriving DecidableEq, Repr

/-- Activity: one normalized activity record (cmd/main.go). All fields are
strings; location through bookingUrl are optional (omitempty). -/
structure Activity where
  id : String
  title : String
  description : String
  category : String
  location : String
  ageRange : String
  date : String
  price : String
  imageUrl : String
  bookingUrl : String
deriving DecidableEq, Repr

/-- SearchResponse: the response body of the search endpoint (cmd/main.go). -/
structure SearchResponse where
  success : Bool
  activities : List Activity
  message : String
  error : String
deriving DecidableEq, Repr

/-- rateLimitEntry: one per-IP rate-limit record (cmd/main.go);
`resetTime` is the end of the current window in abstract ticks. -/
structure rateLimitEntry where
  count : Nat
  resetTime : Nat
deriving DecidableEq, Repr

/-- Rate-limiter configuration: cmd/main.go has
`maxRequestsPerWindow = 1000` and `rateLimitWindow = time.Hour`. -/
structure RLConfig where
  maxRequestsPerWindow : Nat
  rateLimitWindow : Nat
deriving DecidableEq, Repr

/-- The default request cap per window (cmd/main.go: 1000). -/
def defaultMaxRequestsPerWindow : Nat := 1000

/-- The global rate-limit map `rateLimitMap`, as explicit state. -/
def RLTable : Type := String → Option rateLimitEntry

/-- The empty rate-limit map. -/
def RLTable.empty : RLTable := fun _ => none

/-- Map update `rateLimitMap[ip] = entry`. -/
def RLTable.set (t : RLTable) (k : String) (e : rateLimitEntry) : RLTable :=
  fun x => if x = k then some e else t x

/-- checkRateLimit (cmd/main.go): returns whether the call is admitted and
the updated map. A missing entry, or `now` strictly after `resetTime`
(Go `now.After(entry.resetTime)`), (re)creates the entry with count 1 and
resetTime `now + window`; otherwise a count at or above the cap rejects
without mutation, and any other call increments the count. -/
def checkRateLimit (cfg : RLConfig) (now : Nat) (t : RLTable) (ip : String) :
    Bool × RLTable :=
  match t ip with
  | none => (true, t.set ip ⟨1, now + cfg.rateLimitWindow⟩)
  | some entry =>
    if entry.resetTime < now then
      (true, t.set ip ⟨1, now + cfg.rateLimitWindow⟩)
    else if cfg.maxRequestsPerWindow ≤ entry.count then
      (false, t)
    else
      (true, t.set ip ⟨entry.count + 1, entry.resetTime⟩)

/-- The rate-limit map after `k` consecutive `checkRateLimit` calls for
`ip`, all at time `now`, starting from the empty map. -/
def allowCalls (cfg : RLConfig) (now : Nat) (ip : String) : Nat → RLTable
  | 0 => RLTable.empty
  | k + 1 => (checkRateLimit cfg now (allowCalls cfg now ip k) ip).2

/-- An ASCII whitespace character (model of the character set Go
`strings.TrimSpace` strips; the repository's inputs are ASCII). -/
def isSpaceChar (c : Char) : Bool :=
  c = ' ' || c = '\t' || c = '\n' || c = '\r'

/-- Go `strings.TrimSpace`: strip leading and trailing whitespace. -/
def trimSpace (s : String) : String :=
  ⟨((s.data.dropWhile isSpaceChar).reverse.dropWhile isSpaceChar).reverse⟩

/-- isIPAllowed (cmd/main.go): whether the client IP is in the allowlist;
each configured entry is compared after whitespace trimming, returning on
the first match. -/
def isIPAllowed (ip : String) (allowedIPs : List String) : Bool :=
  allowedIPs.any (fun allowed => trimSpace allowed == ip)

/-- The access decision of the spec's AccessGate (section 4.2). -/
inductive AccessDecision
  | bypass
  | allowed
  | rejected
deriving DecidableEq, Repr

/-- The App Check gating of SearchActivities (cmd/main.go lines 246-254):
the token is verified only when the client IP is not allowlisted and
SKIP_APP_CHECK is not set; `verifyToken` abstracts
`verifyAppCheckToken` (Firebase Admin SDK), taking the optional
X-Firebase-AppCheck header value. -/
def decideAccess (clientIP : String) (allowedIPs : List String)
    (skipAppCheck : Bool) (verifyToken : Option String → Bool)
    (token : Option String) : AccessDecision :=
  if isIPAllowed clientIP allowedIPs then .bypass
  else if skipAppCheck then .bypass
  else if verifyToken token then .allowed
  else .rejected

/-- GenerativeClient error taxonomy: the distinct named errors of
sendGeminiRequest (gemini_client.go). `transportFailure` covers the
request-send and body-read failures (both wrapped transport errors in the
source); `statusError` keeps the HTTP status code and the raw body;
`responseParseFailure` is an undecodable response envelope. -/
inductive GeminiError
  | transportFailure (msg : String)
  | statusError (code : Nat) (body : String)
  | responseParseFailure (body : String)
  | noCandidates
  | noParts
deriving DecidableEq, Repr

/-- Part: one text segment of a Gemini content block (gemini_client.go). -/
structure Part where
  text : String
deriving DecidableEq, Repr

/-- CandidateContent: the content of one response candidate. -/
structure CandidateContent where
  parts : List Part
deriving DecidableEq, Repr

/-- SafetyRating (gemini_client.go). -/
structure SafetyRating where
  category : String
  probability : String
deriving DecidableEq, Repr

/-- Candidate: one candidate of the Gemini response envelope. -/
structure Candidate where
  content : CandidateContent
  finishReason : String
  safetyRatings : List SafetyRating
deriving DecidableEq, Repr

/-- GeminiResponse: the response envelope (gemini_client.go). -/
structure GeminiResponse where
  candidates : List Candidate
deriving DecidableEq, Repr

/-- sendGeminiRequest (gemini_client.go lines 238-293), from the HTTP
exchange onward: `httpResult` is the outcome of sending the marshalled
request (transport error message, or status code and raw body) and
`parseResponse` abstracts `json.Unmarshal` into `GeminiResponse`. A
non-200 status fails with the status and body; an undecodable body fails;
zero candidates and zero parts fail; otherwise the text of the FIRST part
of the first candidate is returned (`Candidates[0].Content.Parts[0].Text`),
with no concatenation across parts and no emptiness check. -/
def sendGeminiRequest (parseResponse : String → Option GeminiResponse)
    (httpResult : Except String (Nat × String)) : Except GeminiError String :=
  match httpResult with
  | .error msg => .error (.transportFailure msg)
  | .ok (statusCode, body) =>
    if statusCode ≠ 200 then .error (.statusError statusCode body)
    else
      match parseResponse body with
      | none => .error (.responseParseFailure body)
      | some geminiResp =>
        match geminiResp.candidates with
        | [] => .error .noCandidates
        | c :: _ =>
          match c.content.parts with
          | [] => .error .noParts
          | p :: _ => .ok p.text

/-- Byte-index search, modelling Go `bytes.Index` over the response text
(strings as `List Char`; the repository's inputs are ASCII): the index of
the first occurrence of `pat` in `s`, or `none` when absent. -/
def bIndex : List Char → List Char → Option Nat
  | s, pat =>
    if pat.isPrefixOf s then some 0
    else
      match s with
      | [] => none
      | _ :: t => (bIndex t pat).map (· + 1)

/-- The JSON-language fence marker `jsonMarker` (gemini_client.go). -/
def jsonMarker : List Char := "```json".data

/-- The generic fence marker (gemini_client.go). -/
def fenceMarker : List Char := "```".data

/-- The normalization failure of stage 2 (spec: StructuredParseFailure),
carrying the text whose parse failed: gemini_client.go returns the
`json.Unmarshal` error of that text, wrapped as
"failed to parse activities from response". -/
inductive ParseFailure
  | structuredParseFailure (rawText : List Char)
deriving DecidableEq, Repr

/-- extractJSONFromMarkdown (gemini_client.go lines 386-429):
`unmarshalActs` abstracts `json.Unmarshal` into `[]Activity`. First the
interior of a ```json fence is sought, then (only when no ```json marker
exists) the interior of a plain ``` fence pair; when a complete pair was
found its interior is parsed (a failure there is returned, with no further
fallback), otherwise the whole text is parsed as a last resort. -/
def extractJSONFromMarkdown (unmarshalActs : List Char → Option (List Activity))
    (text : List Char) : Except ParseFailure (List Activity) :=
  let probeJson : Option Nat × Option Nat :=
    match bIndex text jsonMarker with
    | some idx =>
      let s := idx + jsonMarker.length
      (some s, (bIndex (text.drop s) fenceMarker).map (fun e => s + e))
    | none => (none, none)
  let probe : Option Nat × Option Nat :=
    match probeJson with
    | (none, _) =>
      match bIndex text fenceMarker with
      | some idx =>
        let s := idx + fenceMarker.length
        (some s, (bIndex (text.drop s) fenceMarker).map (fun e => s + e))
      | none => (none, none)
    | _ => probeJson
  match probe with
  | (some s, some e) =>
    match unmarshalActs ((text.drop s).take (e - s)) with
    | some activities => .ok activities
    | none => .error (.structuredParseFailure ((text.drop s).take (e - s)))
  | _ =>
    match unmarshalActs text with
    | some activities => .ok activities
    | none => .error (.structuredParseFailure text)

/-- The parsing portion of convertToStructuredJSON (gemini_client.go lines
224-234), applied to the stage-2 response text: a strict whole-text parse,
then the fenced extraction fallback; any surviving failure is returned
(wrapped in the source as "failed to parse activities from response"). -/
def convertToStructuredJSON (unmarshalActs : List Char → Option (List Activity))
    (responseText : List Char) : Except ParseFailure (List Activity) :=
  match unmarshalActs responseText with
  | some activities => .ok activities
  | none => extractJSONFromMarkdown unmarshalActs responseText

/-- A JSON array wrapped in a ```json fence, as in the spec's tier-2
extraction example. -/
def wrapJsonFence (arr : List Char) : List Char :=
  jsonMarker ++ '\n' :: (arr ++ '\n' :: fenceMarker)

/-- A JSON array wrapped in a plain ``` fence, as in the spec's tier-3
extraction example. -/
def wrapPlainFence (arr : List Char) : List Char :=
  fenceMarker ++ '\n' :: (arr ++ '\n' :: fenceMarker)

/-- The target-year token of buildSearchPrompt (gemini_client.go lines
307-313): the leading 4 characters of `dateRange.startDate` when a date
range is present (Go `req.DateRange.StartDate[:4]`, which panics when the
string is shorter than 4 bytes — modelled as the error case), else the
current calendar year. -/
def searchYear (currentYear : Nat) (req : SearchRequest) : Except String String :=
  match req.dateRange with
  | some dr =>
    if dr.startDate.length < 4 then
      .error "runtime error: slice bounds out of range"
    else
      .ok ⟨dr.startDate.data.take 4⟩
  | none => .ok (toString currentYear)

/-- The fixed instruction block appended to every search prompt
(gemini_client.go lines 316-342, transcribed verbatim). -/
def searchPromptTail : String := "

### CRITICAL INSTRUCTIONS:
1. For every activity identified, you MUST provide the direct 'official' URL (e.g., the website of the park, zoo, or organizer).
2. Look specifically at the 'source' link or 'metadata' attached to each search result snippet to find these URLs.
3. DO NOT state that the URL is 'not available' if a search result exists.
4. Extract as much information as possible from the search results including:
   - Category (Educational, Sports, Arts, Outdoor, Entertainment, etc.)
   - Specific location/venue name and address
   - Price information (look for cost, pricing, admission fees in the search results)
   - Date information if available
5. Format each entry as: 
   - Name: [Activity Name]
   - Description: [1-2 sentences about the activity]
   - URL: [Direct Web Link from search result]
   - Category: [Category type - REQUIRED, infer from activity type if not explicitly stated]
   - Location: [Specific venue/location name - REQUIRED]
   - Age Range: [Age range suitable for the activity]
   - Date: [Specific date or date range if available]
   - Price: [Price information - look for this in search snippets, e.g., \"Free\", \"$25\", \"$15-$30\", \"From $20\"]

### ADDITIONAL REQUIREMENTS:
- Prioritise venues that allow drop and leave activities (but don't mention this in descriptions)
- Only provide suggestions where the activity is current or upcoming, and published or updated from the past 12 months or less than one year
- For Category: Analyze the activity type and assign appropriate category (Educational, Sports, Arts, Outdoor, Entertainment, Technology, Science, etc.)
- For Location: Include the specific venue name, not just the city
- For Price: Search the snippets carefully for pricing information - it's often mentioned in event descriptions"

/-- buildSearchPrompt (gemini_client.go lines 296-345): the stage-1 search
prompt, built from the query, the optional age range and location clauses,
the target-year token, and the fixed instruction tail. The error case is
the Go runtime panic of the unguarded `StartDate[:4]` slice. -/
def buildSearchPrompt (currentYear : Nat) (req : SearchRequest) :
    Except String String :=
  let prompt := "Search for 5-10 " ++ req.query ++ " activities"
  let prompt :=
    match req.ageRange with
    | some ar => prompt ++ " for kids aged " ++ toString ar.min ++ "-" ++ toString ar.max
    | none => prompt
  let prompt := if req.location ≠ "" then prompt ++ " in " ++ req.location else prompt
  match searchYear currentYear req with
  | .error e => .error e
  | .ok y => .ok (prompt ++ " for school holidays in " ++ y ++ searchPromptTail)

/-- The HTTP methods the endpoint distinguishes. -/
inductive HttpMethod
  | options
  | post
  | get
deriving DecidableEq, Repr

/-- An HTTP response of the endpoint: status code and optional JSON body
(the CORS preflight writes no body). -/
structure HttpResponse where
  status : Nat
  body : Option SearchResponse
deriving DecidableEq, Repr

/-- sendErrorResponse (cmd/main.go lines 320-327). -/
def sendErrorResponse (statusCode : Nat) (errorMessage : String) : HttpResponse :=
  ⟨statusCode, some ⟨false, [], "", errorMessage⟩⟩

/-- performSearch (cmd/main.go lines 292-317): `pipelineResult` abstracts
the outcome of `GenerateActivitiesSuggestions` (the whole two-stage Gemini
pipeline, any error type); every failure is swallowed and replaced by the
empty Activity list. -/
def performSearch {ε : Type} (req : SearchRequest)
    (pipelineResult : Except ε (List Activity)) : List Activity :=
  match pipelineResult with
  | .ok activities => activities
  | .error _ => []

/-- SearchActivities (cmd/main.go lines 207-289): CORS preflight, method
check, rate limit, App Check gating, body decoding (`body = none` is a
malformed JSON body), blank-query validation, then the search pipeline
whose outcome is always wrapped in a 200 success response. -/
def SearchActivities {ε : Type} (method : HttpMethod) (cfg : RLConfig)
    (now : Nat) (rateTable : RLTable) (clientIP : String)
    (allowedIPs : List String) (skipAppCheck : Bool)
    (verifyToken : Option String → Bool) (appCheckToken : Option String)
    (body : Option SearchRequest)
    (pipelineResult : Except ε (List Activity)) : HttpResponse :=
  if method = .options then ⟨204, none⟩
  else if method ≠ .post then sendErrorResponse 405 "Method not allowed. Use POST."
  else if !(checkRateLimit cfg now rateTable clientIP).1 then
    sendErrorResponse 429 "Rate limit exceeded. Please try again later."
  else if !isIPAllowed clientIP allowedIPs && !skipAppCheck
      && !verifyToken appCheckToken then
    sendErrorResponse 401 "Invalid or missing App Check token"
  else
    match body with
    | none => sendErrorResponse 400 "Invalid JSON format"
    | some searchRequest =>
      if trimSpace searchRequest.query = "" then
        sendErrorResponse 400 "Query parameter is required and cannot be empty"
      else
        let activities := performSearch searchRequest pipelineResult
        ⟨200, some ⟨true, activities,
          "Found " ++ toString activities.length ++ " activities", ""⟩⟩

/-- A JSON value, for the serialization round-trip of the response schema. -/
inductive JValue
  | str (s : String)
  | num (n : Int)
  | jbool (b : Bool)
  | null
  | arr (elements : List JValue)
  | obj (fields : List (String × JValue))

/-- One optional (omitempty) string field of the Activity JSON encoding:
omitted when empty, per Go encoding/json on the struct tags of
cmd/main.go lines 62-73. -/
def optField (key v : String) : List (String × JValue) :=
  if v = "" then [] else [(key, .str v)]

/-- Go json.Marshal of one Activity (cmd/main.go lines 62-73): the four
required fields, then each optional field unless it is empty. -/
def marshalActivity (a : Activity) : JValue :=
  .obj ([("id", .str a.id), ("title", .str a.title),
    ("description", .str a.description), ("category", .str a.category)]
    ++ optField "location" a.location
    ++ optField "ageRange" a.ageRange
    ++ optField "date" a.date
    ++ optField "price" a.price
    ++ optField "imageUrl" a.imageUrl
    ++ optField "bookingUrl" a.bookingUrl)

/-- Go json.Marshal of an Activity list: a JSON array. -/
def marshalActivities (l : List Activity) : JValue :=
  .arr (l.map marshalActivity)

/-- First-match field lookup in a JSON object. -/
def findField : List (String × JValue) → String → Option JValue
  | [], _ => none
  | (k, v) :: rest, key => if k = key then some v else findField rest key

/-- Decoding one string field per Go encoding/json: a missing key leaves
the zero value "", a non-string value is a decode error. -/
def getStringField (fields : List (String × JValue)) (key : String) :
    Option String :=
  match findField fields key with
  | none => some ""
  | some (.str s) => some s
  | some _ => none

/-- Go json.Unmarshal of one Activity value. -/
def unmarshalActivity : JValue → Option Activity
  | .obj fields =>
    (getStringField fields "id").bind fun id =>
    (getStringField fields "title").bind fun title =>
    (getStringField fields "description").bind fun description =>
    (getStringField fields "category").bind fun category =>
    (getStringField fields "location").bind fun location =>
    (getStringField fields "ageRange").bind fun ageRange =>
    (getStringField fields "date").bind fun date =>
    (getStringField fields "price").bind fun price =>
    (getStringField fields "imageUrl").bind fun imageUrl =>
    (getStringField fields "bookingUrl").bind fun bookingUrl =>
    some ⟨id, title, description, category, location, ageRange, date, price,
      imageUrl, bookingUrl⟩
  | _ => none

/-- Go json.Unmarshal of a list of Activity values: any element failure
fails the whole decode. -/
def unmarshalActivityList : List JValue → Option (List Activity)
  | [] => some []
  | v :: rest =>
    (unmarshalActivity v).bind fun a =>
    (unmarshalActivityList rest).bind fun tail =>
    some (a :: tail)

/-- Go json.Unmarshal of `[]Activity`: the value must be a JSON array. -/
def unmarshalActivities : JValue → Option (List Activity)
  | .arr elements => unmarshalActivityList elements
  | _ => none

/-- The backtick character (written via its string form). -/
def backtick : Char := ("`".data).headD ' '

/-- A toy stand-in for json.Unmarshal accepting exactly the empty JSON
array (with or without the surrounding newlines a fence leaves around the
interior), used to instantiate the extraction theorems at concrete
inputs. -/
def toyUnmarshal : List Char → Option (List Activity) := fun s =>
  if s = "[]".data then some []
  else if s = '\n' :: ("[]".data ++ ['\n']) then some []
  else none

/-! ## Theorems -/

/-- Helper: after `k ≤ N` calls at one instant from the empty map, the
entry for `ip` holds count `k` (absent when `k = 0`). -/
theorem allowCalls_table (N W now : Nat) (ip : String) :
    ∀ k, k ≤ N →
      allowCalls ⟨N, W⟩ now ip k ip =
        if k = 0 then none else some ⟨k, now + W⟩ := by
  intro k
  induction k with
  | zero => intro _; rfl
  | succ k ih =>
    intro hk
    have hk' : k ≤ N := Nat.le_of_succ_le hk
    have htbl := ih hk'
    by_cases h0 : k = 0
    · subst h0
      rw [if_pos rfl] at htbl
      rw [allowCalls]
      simp only [checkRateLimit, htbl]
      simp [RLTable.set]
    · rw [if_neg h0] at htbl
      rw [allowCalls]
      simp only [checkRateLimit, htbl]
      have h1 : ¬ (now + W < now) := by omega
      have h2 : ¬ (N ≤ k) := by omega
      simp [h1, h2, RLTable.set, h0]

/-- C2 (amended): the window boundary is strict. A first call, or a call
strictly after the entry's resetTime, (re)creates the entry with count 1
and resetTime `now + window` and admits; a call at or before resetTime
with the count at the cap is rejected without mutation; any other call in
the window increments the count and admits; and from an empty map the
first `N` same-window calls are admitted while the `(N+1)`-th is
rejected. -/
theorem checkRateLimit_spec (cfg : RLConfig) (now : Nat) (t : RLTable)
    (ip : String) :
    (t ip = none →
      checkRateLimit cfg now t ip =
        (true, t.set ip ⟨1, now + cfg.rateLimitWindow⟩)) ∧
    (∀ e, t ip = some e → e.resetTime < now →
      checkRateLimit cfg now t ip =
        (true, t.set ip ⟨1, now + cfg.rateLimitWindow⟩)) ∧
    (∀ e, t ip = some e → now ≤ e.resetTime →
      cfg.maxRequestsPerWindow ≤ e.count →
      checkRateLimit cfg now t ip = (false, t)) ∧
    (∀ e, t ip = some e → now ≤ e.resetTime →
      e.count < cfg.maxRequestsPerWindow →
      checkRateLimit cfg now t ip =
        (true, t.set ip ⟨e.count + 1, e.resetTime⟩)) ∧
    (∀ N W, 1 ≤ N →
      (∀ j, j < N →
        (checkRateLimit ⟨N, W⟩ now (allowCalls ⟨N, W⟩ now ip j) ip).1 = true) ∧
      (checkRateLimit ⟨N, W⟩ now (allowCalls ⟨N, W⟩ now ip N) ip).1 = false) := by
  refine ⟨?_, ?_, ?_, ?_, ?_⟩
  · intro h
    simp only [checkRateLimit, h]
  · intro e he hlt
    simp only [checkRateLimit, he]
    simp [hlt]
  · intro e he hle hcap
    simp only [checkRateLimit, he]
    have h1 : ¬ (e.resetTime < now) := by omega
    simp [h1, hcap]
  · intro e he hle hlt
    simp only [checkRateLimit, he]
    have h1 : ¬ (e.resetTime < now) := by omega
    have h2 : ¬ (cfg.maxRequestsPerWindow ≤ e.count) := by omega
    simp [h1, h2]
  · intro N W hN
    constructor
    · intro j hj
      have htbl := allowCalls_table N W now ip j (Nat.le_of_lt hj)
      by_cases h0 : j = 0
      · subst h0
        rw [if_pos rfl] at htbl
        simp only [checkRateLimit, htbl]
      · rw [if_neg h0] at htbl
        simp only [checkRateLimit, htbl]
        have h1 : ¬ (now + W < now) := by omega
        have h2 : ¬ (N ≤ j) := by omega
        simp [h1, h2]
    · have htbl := allowCalls_table N W now ip N (Nat.le_refl N)
      rw [if_neg (by omega : ¬ N = 0)] at htbl
      simp only [checkRateLimit, htbl]
      have h1 : ¬ (now + W < now) := by omega
      simp [h1]

/-- C2 witness: a first call at cap 2 is admitted with a fresh entry, and
with cap `N = 2` the third same-window call is rejected. -/
theorem checkRateLimit_spec_witness :
    checkRateLimit ⟨2, 5⟩ 10 RLTable.empty "a" =
      (true, RLTable.empty.set "a" ⟨1, 10 + 5⟩) ∧
    (checkRateLimit ⟨2, 5⟩ 10 (allowCalls ⟨2, 5⟩ 10 "a" 2) "a").1 = false := by
  constructor
  · exact (checkRateLimit_spec ⟨2, 5⟩ 10 RLTable.empty "a").1 rfl
  · exact ((checkRateLimit_spec ⟨2, 5⟩ 10 RLTable.empty "a").2.2.2.2 2 5
      (by omega)).2

/-- C2 counterexample: with limit 1 and an entry `⟨count 1, resetTime 100⟩`,
the call at `now = 100` — exactly the entry's reset instant — is rejected
and the entry is left unchanged, while the claim ("any call at or after
windowResetAt (re)creates the entry with count 1 and returns true")
predicts admission with a recreated entry: Go `now.After(resetTime)` is
strict. -/
theorem checkRateLimit_at_reset_counterexample :
    (checkRateLimit ⟨1, 10⟩ 100 (RLTable.empty.set "k" ⟨1, 100⟩) "k").1 = false ∧
    (checkRateLimit ⟨1, 10⟩ 100 (RLTable.empty.set "k" ⟨1, 100⟩) "k").2 "k" =
      some ⟨1, 100⟩ := by
  constructor <;> rfl

/-- C3: an allowlisted client key yields Bypass for every verifier and
every token (the token is never inspected), and a non-allowlisted key
with the global SKIP_APP_CHECK flag set also yields Bypass for every
verifier and token. -/
theorem decideAccess_bypass_never_inspects_token (clientIP : String)
    (allowedIPs : List String) (skipAppCheck : Bool) :
    (isIPAllowed clientIP allowedIPs = true →
      ∀ (verifyToken : Option String → Bool) (token : Option String),
        decideAccess clientIP allowedIPs skipAppCheck verifyToken token =
          .bypass) ∧
    (isIPAllowed clientIP allowedIPs = false → skipAppCheck = true →
      ∀ (verifyToken : Option String → Bool) (token : Option String),
        decideAccess clientIP allowedIPs skipAppCheck verifyToken token =
          .bypass) := by
  constructor
  · intro h verifyToken token
    simp [decideAccess, h]
  · intro h hs verifyToken token
    simp [decideAccess, h, hs]

/-- C3 witness: an allowlisted IP bypasses with an absent token and an
always-rejecting verifier; a non-allowlisted IP bypasses under the global
flag. -/
theorem decideAccess_bypass_witness :
    decideAccess "1.2.3.4" ["1.2.3.4"] false (fun _ => false) none = .bypass ∧
    decideAccess "9.9.9.9" [] true (fun _ => false) none = .bypass := by
  constructor
  · exact (decideAccess_bypass_never_inspects_token "1.2.3.4" ["1.2.3.4"]
      false).1 (by decide) (fun _ => false) none
  · exact (decideAccess_bypass_never_inspects_token "9.9.9.9" [] true).2
      (by decide) rfl (fun _ => false) none

/-- C1: a POST that passes rate limiting, App Check gating, body decoding
and the blank-query check always gets HTTP 200 with success=true; when
the pipeline fails the activities list of that success response is empty;
and any non-success response of a POST is one of the four pre-flight
rejections (rate limit 429, auth 401, malformed JSON 400, blank query
400). -/
theorem searchActivities_pipeline_failures_masked {ε : Type} (cfg : RLConfig)
    (now : Nat) (rateTable : RLTable) (clientIP : String)
    (allowedIPs : List String) (skipAppCheck : Bool)
    (verifyToken : Option String → Bool) (appCheckToken : Option String) :
    (∀ (req : SearchRequest) (pipelineResult : Except ε (List Activity)),
      (checkRateLimit cfg now rateTable clientIP).1 = true →
      (isIPAllowed clientIP allowedIPs || skipAppCheck ||
        verifyToken appCheckToken) = true →
      ¬ trimSpace req.query = "" →
      SearchActivities .post cfg now rateTable clientIP allowedIPs skipAppCheck
          verifyToken appCheckToken (some req) pipelineResult =
        ⟨200, some ⟨true, performSearch req pipelineResult,
          "Found " ++ toString (performSearch req pipelineResult).length ++
            " activities", ""⟩⟩) ∧
    (∀ (req : SearchRequest) (e : ε),
      (checkRateLimit cfg now rateTable clientIP).1 = true →
      (isIPAllowed clientIP allowedIPs || skipAppCheck ||
        verifyToken appCheckToken) = true →
      ¬ trimSpace req.query = "" →
      SearchActivities .post cfg now rateTable clientIP allowedIPs skipAppCheck
          verifyToken appCheckToken (some req) (.error e) =
        ⟨200, some ⟨true, [], "Found 0 activities", ""⟩⟩) ∧
    (∀ (body : Option SearchRequest)
      (pipelineResult : Except ε (List Activity)) (b : SearchResponse),
      (SearchActivities .post cfg now rateTable clientIP allowedIPs skipAppCheck
          verifyToken appCheckToken body pipelineResult).body = some b →
      b.success = false →
      ((SearchActivities .post cfg now rateTable clientIP allowedIPs skipAppCheck
          verifyToken appCheckToken body pipelineResult).status = 429 ∧
        b.error = "Rate limit exceeded. Please try again later.") ∨
      ((SearchActivities .post cfg now rateTable clientIP allowedIPs skipAppCheck
          verifyToken appCheckToken body pipelineResult).status = 401 ∧
        b.error = "Invalid or missing App Check token") ∨
      ((SearchActivities .post cfg now rateTable clientIP allowedIPs skipAppCheck
          verifyToken appCheckToken body pipelineResult).status = 400 ∧
        b.error = "Invalid JSON format") ∨
      ((SearchActivities .post cfg now rateTable clientIP allowedIPs skipAppCheck
          verifyToken appCheckToken body pipelineResult).status = 400 ∧
        b.error = "Query parameter is required and cannot be empty")) := by
  have hbool : ∀ h : (isIPAllowed clientIP allowedIPs || skipAppCheck ||
      verifyToken appCheckToken) = true,
      (!isIPAllowed clientIP allowedIPs && !skipAppCheck &&
        !verifyToken appCheckToken) = false := by
    cases isIPAllowed clientIP allowedIPs <;> cases skipAppCheck <;>
      cases verifyToken appCheckToken <;> simp
  refine ⟨?_, ?_, ?_⟩
  · intro req pipelineResult hrate hauth hq
    simp [SearchActivities, hrate, hbool hauth, hq]
  · intro req e hrate hauth hq
    simp [SearchActivities, hrate, hbool hauth, hq, performSearch]
    decide
  · intro body pipelineResult b hb hsucc
    by_cases hrl : (checkRateLimit cfg now rateTable clientIP).1 = true
    case neg =>
      rw [Bool.not_eq_true] at hrl
      simp [SearchActivities, hrl, sendErrorResponse] at hb ⊢
      simp [← hb]
    case pos =>
      by_cases hac : (!isIPAllowed clientIP allowedIPs && !skipAppCheck &&
          !verifyToken appCheckToken) = true
      case pos =>
        simp [SearchActivities, hrl, hac, sendErrorResponse] at hb ⊢
        simp [← hb]
      case neg =>
        rw [Bool.not_eq_true] at hac
        match body with
        | none =>
          simp [SearchActivities, hrl, hac, sendErrorResponse] at hb ⊢
          simp [← hb]
        | some req =>
          by_cases hq : trimSpace req.query = ""
          case pos =>
            simp [SearchActivities, hrl, hac, hq, sendErrorResponse] at hb ⊢
            simp [← hb]
          case neg =>
            simp [SearchActivities, hrl, hac, hq] at hb
            rw [← hb] at hsucc
            simp at hsucc

/-- C1 witness: with an empty rate-limit table and the global skip flag,
a POST with a nonblank query and a failing pipeline gets 200 with
success=true and an empty activities list. -/
theorem searchActivities_pipeline_failures_masked_witness :
    SearchActivities .post ⟨1000, 3600⟩ 0 RLTable.empty "ip" [] true
        (fun _ => false) none (some ⟨"museum", "", none, none⟩)
        (Except.error () : Except Unit (List Activity)) =
      ⟨200, some ⟨true, [], "Found 0 activities", ""⟩⟩ := by
  exact (searchActivities_pipeline_failures_masked ⟨1000, 3600⟩ 0 RLTable.empty
    "ip" [] true (fun _ => false) none).2.1 ⟨"museum", "", none, none⟩ ()
    rfl (by decide) (by decide)

/-- C8 counterexample: a POST from a rate-limited IP whose body is
malformed JSON is answered 429, not 400 (rate limiting and App Check run
before the body is decoded), against the claim that every malformed-JSON
POST gets 400. -/
theorem malformedJson_preempted_counterexample :
    (SearchActivities .post ⟨1, 10⟩ 5 (RLTable.empty.set "ip" ⟨1, 100⟩) "ip"
        [] false (fun _ => false) none none
        (Except.ok [] : Except Unit (List Activity))).status = 429 ∧
    ¬ (SearchActivities .post ⟨1, 10⟩ 5 (RLTable.empty.set "ip" ⟨1, 100⟩) "ip"
        [] false (fun _ => false) none none
        (Except.ok [] : Except Unit (List Activity))).status = 400 := by
  constructor
  · rfl
  · decide

/-- C8 (amended): for POSTs that pass rate limiting and App Check gating,
a malformed JSON body is answered 400 with error "Invalid JSON format",
and a decodable body whose query is blank or whitespace-only is answered
400 with error "Query parameter is required and cannot be empty". -/
theorem badRequest_responses {ε : Type} (cfg : RLConfig) (now : Nat)
    (rateTable : RLTable) (clientIP : String) (allowedIPs : List String)
    (skipAppCheck : Bool) (verifyToken : Option String → Bool)
    (appCheckToken : Option String)
    (pipelineResult : Except ε (List Activity)) :
    ((checkRateLimit cfg now rateTable clientIP).1 = true →
      (isIPAllowed clientIP allowedIPs || skipAppCheck ||
        verifyToken appCheckToken) = true →
      SearchActivities .post cfg now rateTable clientIP allowedIPs skipAppCheck
          verifyToken appCheckToken none pipelineResult =
        sendErrorResponse 400 "Invalid JSON format") ∧
    (∀ (req : SearchRequest),
      (checkRateLimit cfg now rateTable clientIP).1 = true →
      (isIPAllowed clientIP allowedIPs || skipAppCheck ||
        verifyToken appCheckToken) = true →
      trimSpace req.query = "" →
      SearchActivities .post cfg now rateTable clientIP allowedIPs skipAppCheck
          verifyToken appCheckToken (some req) pipelineResult =
        sendErrorResponse 400
          "Query parameter is required and cannot be empty") := by
  have hbool : ∀ h : (isIPAllowed clientIP allowedIPs || skipAppCheck ||
      verifyToken appCheckToken) = true,
      (!isIPAllowed clientIP allowedIPs && !skipAppCheck &&
        !verifyToken appCheckToken) = false := by
    cases isIPAllowed clientIP allowedIPs <;> cases skipAppCheck <;>
      cases verifyToken appCheckToken <;> simp
  constructor
  · intro hrate hauth
    simp [SearchActivities, hrate, hbool hauth]
  · intro req hrate hauth hq
    simp [SearchActivities, hrate, hbool hauth, hq]

/-- C8 witness: with an empty rate-limit table and the skip flag set, a
malformed-JSON POST gets the 400 invalid-JSON response and a POST with a
whitespace-only query gets the 400 blank-query response. -/
theorem badRequest_responses_witness :
    SearchActivities .post ⟨1000, 3600⟩ 0 RLTable.empty "ip" [] true
        (fun _ => false) none none
        (Except.ok [] : Except Unit (List Activity)) =
      sendErrorResponse 400 "Invalid JSON format" ∧
    SearchActivities .post ⟨1000, 3600⟩ 0 RLTable.empty "ip" [] true
        (fun _ => false) none (some ⟨"   ", "", none, none⟩)
        (Except.ok [] : Except Unit (List Activity)) =
      sendErrorResponse 400
        "Query parameter is required and cannot be empty" := by
  constructor
  · exact (badRequest_responses ⟨1000, 3600⟩ 0 RLTable.empty "ip" [] true
      (fun _ => false) none (Except.ok [])).1 rfl (by decide)
  · exact (badRequest_responses ⟨1000, 3600⟩ 0 RLTable.empty "ip" [] true
      (fun _ => false) none (Except.ok [])).2 ⟨"   ", "", none, none⟩ rfl
      (by decide) (by decide)

/-- C10: with a date range present buildSearchPrompt completes without the
runtime panic exactly when startDate has at least 4 characters; a shorter
startDate hits the unguarded `StartDate[:4]` slice (the modelled panic);
and no pre-flight check guards it — a POST with a 2-character startDate
and nonblank query is admitted all the way to the pipeline (HTTP 200). -/
theorem buildSearchPrompt_slice_safety :
    (∀ (currentYear : Nat) (req : SearchRequest) (dr : DateRange),
      req.dateRange = some dr → 4 ≤ dr.startDate.length →
      ∃ p, buildSearchPrompt currentYear req = .ok p) ∧
    (∀ (currentYear : Nat) (req : SearchRequest) (dr : DateRange),
      req.dateRange = some dr → dr.startDate.length < 4 →
      buildSearchPrompt currentYear req =
        .error "runtime error: slice bounds out of range") ∧
    (SearchActivities .post ⟨1000, 3600⟩ 0 RLTable.empty "ip" [] true
        (fun _ => false) none (some ⟨"museum", "", none, some ⟨"25", ""⟩⟩)
        (Except.ok [] : Except Unit (List Activity))).status = 200 ∧
    buildSearchPrompt 2026 ⟨"museum", "", none, some ⟨"25", ""⟩⟩ =
      .error "runtime error: slice bounds out of range" := by
  refine ⟨?_, ?_, ?_, ?_⟩
  · intro currentYear req dr hdr hlen
    simp [buildSearchPrompt, searchYear, hdr, Nat.not_lt.mpr hlen]
  · intro currentYear req dr hdr hlen
    simp [buildSearchPrompt, searchYear, hdr, hlen]
  · rfl
  · rfl

/-- C10 witness: a 10-character startDate builds a prompt; a 2-character
startDate hits the slice panic. -/
theorem buildSearchPrompt_slice_safety_witness :
    (∃ p, buildSearchPrompt 2025 ⟨"q", "", none, some ⟨"2025-12-20", ""⟩⟩ =
      .ok p) ∧
    buildSearchPrompt 2025 ⟨"q", "", none, some ⟨"25", ""⟩⟩ =
      .error "runtime error: slice bounds out of range" := by
  constructor
  · exact buildSearchPrompt_slice_safety.1 2025 ⟨"q", "", none,
      some ⟨"2025-12-20", ""⟩⟩ ⟨"2025-12-20", ""⟩ rfl (by decide)
  · exact buildSearchPrompt_slice_safety.2.1 2025 ⟨"q", "", none,
      some ⟨"25", ""⟩⟩ ⟨"25", ""⟩ rfl (by decide)

/-- Helper: the middle segment of a four-way concatenation is an infix. -/
theorem infix_middle_segment (a s y t : String) :
    (s ++ y).data <:+: (a ++ s ++ y ++ t).data := by
  refine ⟨a.data, t.data, ?_⟩
  simp [String.data_append, List.append_assoc]

/-- C7: with `dateRange.startDate = "2025-12-20"` the year token is
"2025"; with no dateRange it is the current calendar year; and the built
search prompt contains " for school holidays in " followed by that
token. -/
theorem searchPrompt_year_token :
    (∀ (currentYear : Nat) (q loc : String) (ar : Option AgeRange)
      (endDate : String),
      searchYear currentYear ⟨q, loc, ar, some ⟨"2025-12-20", endDate⟩⟩ =
        .ok "2025") ∧
    (∀ (currentYear : Nat) (req : SearchRequest), req.dateRange = none →
      searchYear currentYear req = .ok (toString currentYear)) ∧
    (∀ (currentYear : Nat) (req : SearchRequest) (y p : String),
      searchYear currentYear req = .ok y →
      buildSearchPrompt currentYear req = .ok p →
      (" for school holidays in " ++ y).data <:+: p.data) := by
  refine ⟨?_, ?_, ?_⟩
  · intro currentYear q loc ar endDate
    rfl
  · intro currentYear req h
    simp [searchYear, h]
  · intro currentYear req y p hy hp
    simp only [buildSearchPrompt, hy] at hp
    rw [Except.ok.injEq] at hp
    rw [← hp]
    exact infix_middle_segment _ _ y searchPromptTail

/-- C7 witness: the two year-token cases and the prompt containment, at
concrete requests. -/
theorem searchPrompt_year_token_witness :
    searchYear 2030 ⟨"q", "", none, some ⟨"2025-12-20", ""⟩⟩ = .ok "2025" ∧
    searchYear 2030 ⟨"q", "", none, none⟩ = .ok "2030" ∧
    ∃ p, buildSearchPrompt 2030 ⟨"q", "", none, none⟩ = .ok p ∧
      (" for school holidays in " ++ "2030").data <:+: p.data := by
  refine ⟨searchPrompt_year_token.1 2030 "q" "" none "",
    searchPrompt_year_token.2.1 2030 ⟨"q", "", none, none⟩ rfl,
    ⟨_, rfl, ?_⟩⟩
  exact searchPrompt_year_token.2.2 2030 ⟨"q", "", none, none⟩ "2030" _
    rfl rfl

/-- C4 counterexample: an envelope whose first candidate has parts
["A", "B"] yields "A" — the first part only, not the concatenation "AB";
an envelope whose only part is "" succeeds with "" instead of failing; so
the claimed concatenation across all parts and the claimed empty-text
error case do not hold. (The undecodable-envelope error, absent from the
claim's list, is also exhibited.) -/
theorem sendGeminiRequest_counterexample :
    sendGeminiRequest
        (fun _ => some ⟨[⟨⟨[⟨"A"⟩, ⟨"B"⟩]⟩, "", []⟩]⟩) (.ok (200, "body")) =
      .ok "A" ∧
    ¬ ("A" = "A" ++ "B") ∧
    sendGeminiRequest (fun _ => some ⟨[⟨⟨[⟨""⟩]⟩, "", []⟩]⟩)
        (.ok (200, "body")) = .ok "" ∧
    sendGeminiRequest (fun _ => none) (.ok (200, "garbage")) =
      .error (.responseParseFailure "garbage") := by
  refine ⟨rfl, by decide, rfl, rfl⟩

/-- C4 (amended): the client returns the text of the FIRST part of the
first candidate (no concatenation, and an empty text is returned as
success, not an error), and fails with a distinct named error exactly on:
transport failure, non-success HTTP status (carrying status code and raw
body), undecodable envelope, zero candidates, and zero parts. -/
theorem sendGeminiRequest_spec (parseResponse : String → Option GeminiResponse)
    (httpResult : Except String (Nat × String)) :
    (∀ msg, httpResult = .error msg →
      sendGeminiRequest parseResponse httpResult =
        .error (.transportFailure msg)) ∧
    (∀ code body, httpResult = .ok (code, body) → code ≠ 200 →
      sendGeminiRequest parseResponse httpResult =
        .error (.statusError code body)) ∧
    (∀ body, httpResult = .ok (200, body) → parseResponse body = none →
      sendGeminiRequest parseResponse httpResult =
        .error (.responseParseFailure body)) ∧
    (∀ body resp, httpResult = .ok (200, body) →
      parseResponse body = some resp → resp.candidates = [] →
      sendGeminiRequest parseResponse httpResult = .error .noCandidates) ∧
    (∀ body resp c cs, httpResult = .ok (200, body) →
      parseResponse body = some resp → resp.candidates = c :: cs →
      c.content.parts = [] →
      sendGeminiRequest parseResponse httpResult = .error .noParts) ∧
    (∀ body resp c cs p ps, httpResult = .ok (200, body) →
      parseResponse body = some resp → resp.candidates = c :: cs →
      c.content.parts = p :: ps →
      sendGeminiRequest parseResponse httpResult = .ok p.text) := by
  refine ⟨?_, ?_, ?_, ?_, ?_, ?_⟩
  · intro msg hr
    subst hr
    rfl
  · intro code body hr hcode
    subst hr
    simp [sendGeminiRequest, hcode]
  · intro body hr hp
    subst hr
    simp [sendGeminiRequest, hp]
  · intro body resp hr hp hc
    subst hr
    simp [sendGeminiRequest, hp, hc]
  · intro body resp c cs hr hp hc hparts
    subst hr
    simp [sendGeminiRequest, hp, hc, hparts]
  · intro body resp c cs p ps hr hp hc hparts
    subst hr
    simp [sendGeminiRequest, hp, hc, hparts]

/-- C4 witness: all six outcomes at concrete inputs. -/
theorem sendGeminiRequest_spec_witness :
    sendGeminiRequest (fun _ => none) (.error "dial tcp: refused") =
      .error (.transportFailure "dial tcp: refused") ∧
    sendGeminiRequest (fun _ => none) (.ok (500, "oops")) =
      .error (.statusError 500 "oops") ∧
    sendGeminiRequest (fun _ => none) (.ok (200, "zz")) =
      .error (.responseParseFailure "zz") ∧
    sendGeminiRequest (fun _ => some ⟨[]⟩) (.ok (200, "e")) =
      .error .noCandidates ∧
    sendGeminiRequest (fun _ => some ⟨[⟨⟨[]⟩, "", []⟩]⟩) (.ok (200, "e")) =
      .error .noParts ∧
    sendGeminiRequest (fun _ => some ⟨[⟨⟨[⟨"hi"⟩]⟩, "", []⟩]⟩)
      (.ok (200, "e")) = .ok "hi" := by
  refine ⟨(sendGeminiRequest_spec (fun _ => none) _).1 "dial tcp: refused" rfl,
    (sendGeminiRequest_spec (fun _ => none) _).2.1 500 "oops" rfl (by decide),
    (sendGeminiRequest_spec (fun _ => none) _).2.2.1 "zz" rfl rfl,
    (sendGeminiRequest_spec (fun _ => some ⟨[]⟩) _).2.2.2.1 "e" ⟨[]⟩ rfl rfl
      rfl,
    (sendGeminiRequest_spec (fun _ => some ⟨[⟨⟨[]⟩, "", []⟩]⟩)
      _).2.2.2.2.1 "e" ⟨[⟨⟨[]⟩, "", []⟩]⟩ ⟨⟨[]⟩, "", []⟩ [] rfl rfl rfl rfl,
    (sendGeminiRequest_spec (fun _ => some ⟨[⟨⟨[⟨"hi"⟩]⟩, "", []⟩]⟩)
      _).2.2.2.2.2 "e" ⟨[⟨⟨[⟨"hi"⟩]⟩, "", []⟩]⟩ ⟨⟨[⟨"hi"⟩]⟩, "", []⟩ []
      ⟨"hi"⟩ [] rfl rfl rfl rfl⟩

/-- C6 counterexample: the spec's two intro-stripping examples fail on the
code. Segments ["Okay, I will search for museums.", "Real content here."]
assemble to the FIRST segment (the acknowledgement), not to "Real content
here."; segments ["Real content here.", "More."] assemble to the first
segment alone, not to the concatenation of both. -/
theorem intro_stripping_counterexample :
    sendGeminiRequest
        (fun _ => some ⟨[⟨⟨[⟨"Okay, I will search for museums."⟩,
          ⟨"Real content here."⟩]⟩, "", []⟩]⟩) (.ok (200, "b")) =
      .ok "Okay, I will search for museums." ∧
    ¬ ("Okay, I will search for museums." = "Real content here.") ∧
    sendGeminiRequest
        (fun _ => some ⟨[⟨⟨[⟨"Real content here."⟩, ⟨"More."⟩]⟩, "", []⟩]⟩)
        (.ok (200, "b")) = .ok "Real content here." ∧
    ¬ ("Real content here." = "Real content here." ++ "More.") := by
  refine ⟨rfl, by decide, rfl, by decide⟩

/-- C6 (amended): no intro stripping exists in the code: for every
response whose first candidate has at least one text segment, the
assembled raw text is exactly the first segment's text — whatever the
number of segments and whether or not the first contains an
acknowledgement phrase — and the remaining segments are discarded. -/
theorem assembled_text_is_first_segment
    (parseResponse : String → Option GeminiResponse) (body : String)
    (resp : GeminiResponse) (c : Candidate) (cs : List Candidate)
    (p : Part) (ps : List Part)
    (hp : parseResponse body = some resp)
    (hc : resp.candidates = c :: cs)
    (hparts : c.content.parts = p :: ps) :
    sendGeminiRequest parseResponse (.ok (200, body)) = .ok p.text := by
  simp [sendGeminiRequest, hp, hc, hparts]

/-- C6 witness: a two-segment response whose first segment is an
acknowledgement assembles to that first segment. -/
theorem assembled_text_is_first_segment_witness :
    sendGeminiRequest
        (fun _ => some ⟨[⟨⟨[⟨"Okay, I will search."⟩, ⟨"Real."⟩]⟩, "", []⟩]⟩)
        (.ok (200, "b")) = .ok "Okay, I will search." := by
  exact assembled_text_is_first_segment _ "b"
    ⟨[⟨⟨[⟨"Okay, I will search."⟩, ⟨"Real."⟩]⟩, "", []⟩]⟩
    ⟨⟨[⟨"Okay, I will search."⟩, ⟨"Real."⟩]⟩, "", []⟩ []
    ⟨"Okay, I will search."⟩ [⟨"Real."⟩] rfl rfl rfl

/-- Helper: a pattern that is a prefix is found at index 0. -/
theorem bIndex_of_isPrefixOf {s pat : List Char}
    (h : pat.isPrefixOf s = true) : bIndex s pat = some 0 := by
  cases s with
  | nil => simp [bIndex, h]
  | cons c t => simp [bIndex, h]

/-- Helper: when the pattern does not start at the head, the search
shifts by one. -/
theorem bIndex_cons_of_ne {c : Char} {s pat : List Char}
    (h : pat.isPrefixOf (c :: s) = false) :
    bIndex (c :: s) pat = (bIndex s pat).map (· + 1) := by
  simp [bIndex, h]

/-- Helper: the search skips a leading block that contains no occurrence
of the pattern's head character. -/
theorem bIndex_append_of_ne (pre s pat : List Char) (p : Char)
    (ps : List Char) (hpat : pat = p :: ps) (h : ∀ c ∈ pre, c ≠ p) :
    bIndex (pre ++ s) pat = (bIndex s pat).map (· + pre.length) := by
  induction pre with
  | nil => simp
  | cons c t ih =>
    have hc : (p == c) = false :=
      beq_eq_false_iff_ne.mpr (Ne.symm (h c (by simp)))
    have hpre : pat.isPrefixOf (c :: (t ++ s)) = false := by
      subst hpat
      simp [List.isPrefixOf, hc]
    rw [List.cons_append, bIndex_cons_of_ne hpre,
      ih (fun x hx => h x (by simp [hx]))]
    cases bIndex s pat with
    | none => rfl
    | some x => simp [Nat.add_assoc]

/-- Helper: absence of the pattern, from per-position prefix failure. -/
theorem bIndex_none (s pat : List Char)
    (h : ∀ i, pat.isPrefixOf (s.drop i) = false) : bIndex s pat = none := by
  induction s with
  | nil =>
    have h0 := h 0
    simp only [List.drop_nil] at h0
    have hne : pat ≠ [] := by
      intro he
      subst he
      simp [List.isPrefixOf] at h0
    simp [bIndex, hne]
  | cons c t ih =>
    rw [bIndex_cons_of_ne (h 0), ih (fun i => h (i + 1))]
    rfl

/-- Helper: the converse — per-position prefix failure from absence. -/
theorem isPrefixOf_drop_of_bIndex_none (s pat : List Char)
    (h : bIndex s pat = none) : ∀ i, pat.isPrefixOf (s.drop i) = false := by
  induction s with
  | nil =>
    intro i
    by_cases hp : pat.isPrefixOf ([] : List Char) = true
    · rw [bIndex_of_isPrefixOf hp] at h
      exact absurd h (by simp)
    · rw [Bool.not_eq_true] at hp
      simpa using hp
  | cons c t ih =>
    intro i
    by_cases hp : pat.isPrefixOf (c :: t) = true
    · rw [bIndex_of_isPrefixOf hp] at h
      exact absurd h (by simp)
    · rw [Bool.not_eq_true] at hp
      rw [bIndex_cons_of_ne hp] at h
      have ht : bIndex t pat = none := by
        cases hv : bIndex t pat with
        | none => rfl
        | some x => rw [hv] at h; simp at h
      cases i with
      | zero => simpa using hp
      | succ j => exact ih ht j

/-- Helper: a pattern longer than the text is not a prefix. -/
theorem isPrefixOf_eq_false_of_lt (l pat : List Char)
    (h : l.length < pat.length) : pat.isPrefixOf l = false := by
  by_cases hp : pat.isPrefixOf l = true
  · rw [List.isPrefixOf_iff_prefix] at hp
    exact absurd hp.length_le (by omega)
  · rwa [Bool.not_eq_true] at hp

/-- Helper: the closing fence after a backtick-free interior is found
right past the interior. -/
theorem bIndex_inner_fence (arr : List Char) (h : ∀ c ∈ arr, c ≠ backtick) :
    bIndex ('\n' :: (arr ++ '\n' :: fenceMarker)) fenceMarker =
      some (arr.length + 2) := by
  have hshape : '\n' :: (arr ++ '\n' :: fenceMarker) =
      ('\n' :: (arr ++ ['\n'])) ++ fenceMarker := by simp
  rw [hshape, bIndex_append_of_ne ('\n' :: (arr ++ ['\n'])) fenceMarker
    fenceMarker backtick [backtick, backtick] (by decide) ?hno]
  · rw [bIndex_of_isPrefixOf (by decide)]
    have hlen : ('\n' :: (arr ++ ['\n'])).length = arr.length + 2 := by simp
    simp [hlen]
  case hno =>
    intro c hc
    simp at hc
    rcases hc with hc | hc | hc
    · subst hc; decide
    · exact h c hc
    · subst hc; decide

/-- Helper: a plain-fenced block with a backtick-free interior contains
no json fence marker at any position. -/
theorem no_jsonMarker_in_wrapPlain (arr : List Char)
    (h : ∀ c ∈ arr, c ≠ backtick) :
    ∀ i, jsonMarker.isPrefixOf ((wrapPlainFence arr).drop i) = false := by
  have hjm : jsonMarker =
      backtick :: backtick :: backtick :: 'j' :: 's' :: 'o' :: 'n' :: [] := rfl
  have hbn : (backtick == '\n') = false := by decide
  have hjn : (('j' : Char) == '\n') = false := by decide
  intro i
  match i with
  | 0 =>
    show jsonMarker.isPrefixOf (backtick :: backtick :: backtick :: '\n' ::
      (arr ++ '\n' :: fenceMarker)) = false
    rw [hjm]
    simp [List.isPrefixOf, hjn]
  | 1 =>
    show jsonMarker.isPrefixOf (backtick :: backtick :: '\n' ::
      (arr ++ '\n' :: fenceMarker)) = false
    rw [hjm]
    simp [List.isPrefixOf, hbn]
  | 2 =>
    show jsonMarker.isPrefixOf (backtick :: '\n' ::
      (arr ++ '\n' :: fenceMarker)) = false
    rw [hjm]
    simp [List.isPrefixOf, hbn]
  | 3 =>
    show jsonMarker.isPrefixOf ('\n' :: (arr ++ '\n' :: fenceMarker)) = false
    rw [hjm]
    simp [List.isPrefixOf, hbn]
  | (j + 4) =>
    show jsonMarker.isPrefixOf ((arr ++ '\n' :: fenceMarker).drop j) = false
    by_cases hlt : j < arr.length
    · have hlt2 : j < (arr ++ '\n' :: fenceMarker).length := by
        simp
        omega
      rw [List.drop_eq_getElem_cons hlt2, List.getElem_append_left hlt, hjm]
      have hne : (backtick == arr[j]) = false :=
        beq_eq_false_iff_ne.mpr (Ne.symm (h _ (List.getElem_mem hlt)))
      simp [List.isPrefixOf, hne]
    · have hj2 : j = arr.length + (j - arr.length) := by omega
      rw [hj2, List.drop_append (j - arr.length)]
      by_cases hk : j - arr.length = 0
      · rw [hk, hjm]
        simp [List.isPrefixOf, hbn]
      · apply isPrefixOf_eq_false_of_lt
        have hdl : (('\n' :: fenceMarker).drop (j - arr.length)).length ≤ 3 := by
          rw [List.length_drop]
          have hfl : ('\n' :: fenceMarker).length = 4 := rfl
          omega
        have hlen : jsonMarker.length = 7 := rfl
        omega

/-- Helper: when no generic fence marker occurs, no json fence marker
occurs either. -/
theorem bIndex_jsonMarker_none (text : List Char)
    (h : bIndex text fenceMarker = none) :
    bIndex text jsonMarker = none := by
  apply bIndex_none
  intro i
  by_cases hp : jsonMarker.isPrefixOf (text.drop i) = true
  · exfalso
    have hf := isPrefixOf_drop_of_bIndex_none text fenceMarker h i
    have hpre : fenceMarker.isPrefixOf (text.drop i) = true := by
      rw [List.isPrefixOf_iff_prefix] at hp ⊢
      exact List.IsPrefix.trans ⟨"json".data, by decide⟩ hp
    rw [hpre] at hf
    simp at hf
  · rwa [Bool.not_eq_true] at hp

/-- Helper: the interior slice of a fenced block. -/
theorem take_inner_fence (arr : List Char) :
    ('\n' :: (arr ++ '\n' :: fenceMarker)).take (arr.length + 2) =
      '\n' :: (arr ++ ['\n']) := by
  have h2 : arr.length + 2 = (arr.length + 1) + 1 := rfl
  rw [h2, List.take_succ_cons, List.take_append 1]
  rfl

/-- Helper: the json-fence tier extracts a backtick-free fenced array. -/
theorem extract_wrapJsonFence (P : List Char → Option (List Activity))
    (arr : List Char) (l : List Activity) (hb : ∀ c ∈ arr, c ≠ backtick)
    (hint : P ('\n' :: (arr ++ ['\n'])) = some l) :
    extractJSONFromMarkdown P (wrapJsonFence arr) = .ok l := by
  have h1 : bIndex (wrapJsonFence arr) jsonMarker = some 0 := by
    apply bIndex_of_isPrefixOf
    rw [List.isPrefixOf_iff_prefix]
    exact ⟨'\n' :: (arr ++ '\n' :: fenceMarker), rfl⟩
  have hdrop : (wrapJsonFence arr).drop jsonMarker.length =
      '\n' :: (arr ++ '\n' :: fenceMarker) := List.drop_left _ _
  have h2 := bIndex_inner_fence arr hb
  simp only [extractJSONFromMarkdown, h1, Nat.zero_add, hdrop, h2,
    Option.map_some', Nat.add_sub_cancel_left, take_inner_fence, hint]

/-- Helper: the plain-fence tier extracts a backtick-free fenced array
when no json marker exists. -/
theorem extract_wrapPlainFence (P : List Char → Option (List Activity))
    (arr : List Char) (l : List Activity) (hb : ∀ c ∈ arr, c ≠ backtick)
    (hint : P ('\n' :: (arr ++ ['\n'])) = some l) :
    extractJSONFromMarkdown P (wrapPlainFence arr) = .ok l := by
  have h0 : bIndex (wrapPlainFence arr) jsonMarker = none :=
    bIndex_none _ _ (no_jsonMarker_in_wrapPlain arr hb)
  have h1 : bIndex (wrapPlainFence arr) fenceMarker = some 0 := by
    apply bIndex_of_isPrefixOf
    rw [List.isPrefixOf_iff_prefix]
    exact ⟨'\n' :: (arr ++ '\n' :: fenceMarker), rfl⟩
  have hdrop : (wrapPlainFence arr).drop fenceMarker.length =
      '\n' :: (arr ++ '\n' :: fenceMarker) := List.drop_left _ _
  have h2 := bIndex_inner_fence arr hb
  simp only [extractJSONFromMarkdown, h0, h1, Nat.zero_add, hdrop, h2,
    Option.map_some', Nat.add_sub_cancel_left, take_inner_fence, hint]

/-- Helper: when no contiguous slice of the text parses, the extraction
fails with a parse failure. -/
theorem extract_error_of_unparseable (P : List Char → Option (List Activity))
    (text : List Char)
    (hP : ∀ s k, P ((text.drop s).take k) = none) :
    ∃ raw, extractJSONFromMarkdown P text =
      .error (.structuredParseFailure raw) := by
  have htext : P text = none := by
    have h0 := hP 0 text.length
    simpa [List.take_length] using h0
  rcases h1 : bIndex text jsonMarker with _ | idx
  · rcases h2 : bIndex text fenceMarker with _ | idx2
    · exact ⟨text, by simp [extractJSONFromMarkdown, h1, h2, htext]⟩
    · rcases h3 : bIndex (text.drop (idx2 + fenceMarker.length)) fenceMarker
        with _ | e2
      · exact ⟨text, by simp [extractJSONFromMarkdown, h1, h2, h3, htext]⟩
      · exact ⟨(text.drop (idx2 + fenceMarker.length)).take e2,
          by simp [extractJSONFromMarkdown, h1, h2, h3,
            Nat.add_sub_cancel_left, hP]⟩
  · rcases h3 : bIndex (text.drop (idx + jsonMarker.length)) fenceMarker
      with _ | e
    · exact ⟨text, by simp [extractJSONFromMarkdown, h1, h3, htext]⟩
    · exact ⟨(text.drop (idx + jsonMarker.length)).take e,
        by simp [extractJSONFromMarkdown, h1, h3,
          Nat.add_sub_cancel_left, hP]⟩

/-- C5: a whole-text parse succeeds directly (tier 1); a backtick-free
array that parses bare parses identically when wrapped in ```json fences
(tier 2) and when wrapped in plain ``` fences (tier 3); and a text none
of whose contiguous slices parses yields a StructuredParseFailure — with
the raw text itself carried when the text has no fence at all — and
never a fabricated list. -/
theorem convertToStructuredJSON_tiers
    (P : List Char → Option (List Activity)) :
    (∀ text l, P text = some l → convertToStructuredJSON P text = .ok l) ∧
    (∀ arr l, (∀ c ∈ arr, c ≠ backtick) → P arr = some l →
      P ('\n' :: (arr ++ ['\n'])) = some l →
      P (wrapJsonFence arr) = none →
      convertToStructuredJSON P (wrapJsonFence arr) = .ok l) ∧
    (∀ arr l, (∀ c ∈ arr, c ≠ backtick) → P arr = some l →
      P ('\n' :: (arr ++ ['\n'])) = some l →
      P (wrapPlainFence arr) = none →
      convertToStructuredJSON P (wrapPlainFence arr) = .ok l) ∧
    (∀ text, (∀ s k, P ((text.drop s).take k) = none) →
      (∃ raw, convertToStructuredJSON P text =
        .error (.structuredParseFailure raw)) ∧
      (bIndex text fenceMarker = none →
        convertToStructuredJSON P text =
          .error (.structuredParseFailure text))) := by
  refine ⟨?_, ?_, ?_, ?_⟩
  · intro text l hp
    simp [convertToStructuredJSON, hp]
  · intro arr l hb hbare hint hwhole
    simp only [convertToStructuredJSON, hwhole]
    exact extract_wrapJsonFence P arr l hb hint
  · intro arr l hb hbare hint hwhole
    simp only [convertToStructuredJSON, hwhole]
    exact extract_wrapPlainFence P arr l hb hint
  · intro text hP
    have htext : P text = none := by
      have h0 := hP 0 text.length
      simpa [List.take_length] using h0
    constructor
    · obtain ⟨raw, hraw⟩ := extract_error_of_unparseable P text hP
      exact ⟨raw, by simp [convertToStructuredJSON, htext, hraw]⟩
    · intro hfence
      have hjson := bIndex_jsonMarker_none text hfence
      simp [convertToStructuredJSON, extractJSONFromMarkdown, htext, hjson,
        hfence]

/-- C5 witness: the four tiers at the concrete array "[]" and the failure
at prose containing no JSON. -/
theorem convertToStructuredJSON_tiers_witness :
    convertToStructuredJSON toyUnmarshal ("[]".data) = .ok [] ∧
    convertToStructuredJSON toyUnmarshal (wrapJsonFence "[]".data) = .ok [] ∧
    convertToStructuredJSON toyUnmarshal (wrapPlainFence "[]".data) =
      .ok [] ∧
    convertToStructuredJSON (fun _ => none) ("no json here".data) =
      .error (.structuredParseFailure ("no json here".data)) := by
  refine ⟨(convertToStructuredJSON_tiers toyUnmarshal).1 "[]".data [] (by decide),
    (convertToStructuredJSON_tiers toyUnmarshal).2.1 "[]".data []
      (by decide) (by decide) (by decide) (by decide),
    (convertToStructuredJSON_tiers toyUnmarshal).2.2.1 "[]".data []
      (by decide) (by decide) (by decide) (by decide),
    ((convertToStructuredJSON_tiers (fun _ => none)).2.2.2 ("no json here".data)
      (fun s k => rfl)).2 (by decide)⟩

set_option maxHeartbeats 1000000 in
/-- Helper: one Activity round-trips through its JSON encoding, whichever
optional fields are empty (and therefore omitted). -/
theorem unmarshal_marshal_activity (a : Activity) :
    unmarshalActivity (marshalActivity a) = some a := by
  rcases a with ⟨i, t, d, c, loc, ar, dt, pr, im, bk⟩
  by_cases h1 : loc = "" <;> by_cases h2 : ar = "" <;> by_cases h3 : dt = "" <;>
    by_cases h4 : pr = "" <;> by_cases h5 : im = "" <;> by_cases h6 : bk = "" <;>
    simp [marshalActivity, optField, unmarshalActivity, getStringField,
      findField, h1, h2, h3, h4, h5, h6]

/-- C9: serializing an Activity list yields a JSON array that decodes
back into an equal Activity list, including activities whose optional
fields are empty strings and are omitted during serialization. -/
theorem activities_json_roundtrip (l : List Activity) :
    (∃ elements, marshalActivities l = JValue.arr elements) ∧
    unmarshalActivities (marshalActivities l) = some l := by
  constructor
  · exact ⟨l.map marshalActivity, rfl⟩
  · have hmap : ∀ xs : List Activity,
        unmarshalActivityList (xs.map marshalActivity) = some xs := by
      intro xs
      induction xs with
      | nil => rfl
      | cons a rest ih =>
        simp [unmarshalActivityList, unmarshal_marshal_activity a, ih]
    simp [marshalActivities, unmarshalActivities, hmap l]

end Schoolsout
